import Mathlib

/-!
Verification of the Google Photos link-extractor service (src/main.py).

The program decodes an embedded JavaScript literal into a generic tree and
walks it with Python subscripting.  The model below embeds that tree as the
inductive type JSON (mappings keep insertion order as association lists with
string keys, as the decoded object literals do), embeds Python subscripting,
truthiness and str() formatting where the source uses them, and embeds the
exception flow: the `except (KeyError, IndexError, TypeError,
demjson3.JSONDecodeError)` handler at src/main.py:97 converts exactly those
four exception classes into an HTTPException 500, while HTTPException itself,
AttributeError and httpx.HTTPStatusError are not in any handler and propagate.
Detail strings are modelled by their fixed prefix; the code appends str(e)
diagnostic text to two of them, which no claim depends on.
-/

/-- Generic decoded tree produced by the lenient decoder: scalars, ordered
sequences, and key-value mappings in insertion order with string keys. -/
inductive JSON where
  | null
  | bool (b : Bool)
  | num (n : Int)
  | str (s : String)
  | seq (xs : List JSON)
  | map (kvs : List (String × JSON))

/-- Python exception classes the pipeline can raise.  `httpException` is
fastapi.HTTPException (status code, detail).  `httpStatusError` is
httpx.HTTPStatusError, the class `response.raise_for_status()` raises on a
non-2xx status; it is a sibling of httpx.RequestError, not a subclass. -/
inductive PyExc where
  | httpException (status : Nat) (detail : String)
  | keyError
  | indexError
  | typeError
  | attributeError
  | httpStatusError
deriving DecidableEq

/-- One entry of the stream_urls list built at src/main.py:79-85. -/
structure StreamEntry where
  label : String
  url : String
deriving DecidableEq

/-- The dictionary returned at src/main.py:87-95. -/
structure PyResult where
  status : Bool
  host : String
  filecode : JSON
  poster : String
  streams : List StreamEntry
  download : JSON
  vtt : Option String

mutual

/-- Python repr() of a decoded value, as str() uses it for containers.
String escaping inside repr is simplified to plain quoting; no claim
stringifies a container. -/
def pyRepr : JSON → String
  | .null => "None"
  | .bool true => "True"
  | .bool false => "False"
  | .num n => toString n
  | .str s => "'" ++ s ++ "'"
  | .seq xs => "[" ++ String.intercalate ", " (pyReprList xs) ++ "]"
  | .map kvs => "\x7b" ++ String.intercalate ", " (pyReprMap kvs) ++ "\x7d"

def pyReprList : List JSON → List String
  | [] => []
  | x :: xs => pyRepr x :: pyReprList xs

def pyReprMap : List (String × JSON) → List String
  | [] => []
  | (k, v) :: kvs => ("'" ++ k ++ "': " ++ pyRepr v) :: pyReprMap kvs

end

/-- Python str() of a decoded value, as the f-strings at src/main.py:81-82
and 91 apply it: strings unchanged, scalars printed, containers via repr. -/
def pyStr : JSON → String
  | .null => "None"
  | .bool true => "True"
  | .bool false => "False"
  | .num n => toString n
  | .str s => s
  | .seq xs => "[" ++ String.intercalate ", " (pyReprList xs) ++ "]"
  | .map kvs => "\x7b" ++ String.intercalate ", " (pyReprMap kvs) ++ "\x7d"

/-- Python subscripting x[i] for the non-negative literal indices the source
uses (0, 1, 2, 7): a list yields the element or IndexError; a string yields
the one-character string or IndexError; a dict (string keys in this model)
raises KeyError for an integer key; scalars raise TypeError. -/
def pyIndex : JSON → Nat → Except PyExc JSON
  | .seq xs, i =>
    match xs[i]? with
    | some v => .ok v
    | none => .error .indexError
  | .str s, i =>
    match s.data[i]? with
    | some c => .ok (.str (String.singleton c))
    | none => .error .indexError
  | .map _, _ => .error .keyError
  | .null, _ => .error .typeError
  | .bool _, _ => .error .typeError
  | .num _, _ => .error .typeError

/-- dict.get(k, d) on an insertion-ordered mapping with distinct keys. -/
def dictGet (kvs : List (String × JSON)) (k : String) (d : JSON) : JSON :=
  match kvs.find? (fun p => p.1 == k) with
  | some p => p.2
  | none => d

/-- data.get('data', []) at src/main.py:52 and 59.  Calling .get on a value
that is not a dict raises AttributeError, a class absent from the except
tuple at line 97. -/
def dataGet : JSON → Except PyExc JSON
  | .map kvs => .ok (dictGet kvs "data" (.seq []))
  | _ => .error .attributeError

/-- The predicate of src/main.py:65: isinstance(value, list) and
len(value) > 7 and isinstance(value[7], list). -/
def isStreamBlock : JSON → Bool
  | .seq ys =>
    decide (7 < ys.length) &&
      (match ys[7]? with
       | some (JSON.seq _) => true
       | _ => false)
  | _ => false

/-- The scan at src/main.py:61-69: walk video_info_block in order, for each
dict element walk its values in insertion order, keep the first value
satisfying the predicate and stop (the found block has length > 7, hence is
truthy, so both break statements fire). -/
def findStreamBlock : List JSON → Option JSON
  | [] => none
  | item :: rest =>
    match item with
    | .map kvs =>
      match (kvs.map Prod.snd).find? isStreamBlock with
      | some v => some v
      | none => findStreamBlock rest
    | _ => findStreamBlock rest

/-- Lines 53-55: not isinstance(video_info_block, list) or
len(video_info_block) < 2 raises HTTPException 500 inside the try block;
HTTPException is not in the except tuple, so it propagates. -/
def checkVib : JSON → Except PyExc (List JSON)
  | .seq xs =>
    if xs.length < 2 then .error (.httpException 500 "Invalid video info format")
    else .ok xs
  | _ => .error (.httpException 500 "Invalid video info format")

/-- The literal dict at src/main.py:78. -/
def quality_map : List (String × String) :=
  [("37", "1080p"), ("22", "720p"), ("18", "360p"), ("36", "180p")]

/-- quality_map.get(k, d). -/
def qualityMapGet (k d : String) : String :=
  match quality_map.find? (fun p => p.1 == k) with
  | some p => p.2
  | none => d

/-- One element of the list comprehension at src/main.py:79-85.  Python
evaluates the arguments of quality_map.get left to right, so quality[0],
quality[1] and quality[2] are all subscripted eagerly: the fallback
f-string is computed even when the code is one of the four known keys. -/
def buildStream (base_url quality : JSON) : Except PyExc StreamEntry :=
  match pyIndex quality 0 with
  | .error e => .error e
  | .ok q0 =>
    match pyIndex quality 1 with
    | .error e => .error e
    | .ok q1 =>
      match pyIndex quality 2 with
      | .error e => .error e
      | .ok q2 =>
        .ok { label := qualityMapGet (pyStr q0)
                ("Resolution " ++ pyStr q1 ++ "x" ++ pyStr q2),
              url := pyStr base_url ++ "=m" ++ pyStr q0 }

/-- The whole list comprehension: one entry per element of quality_info, in
order, aborting at the first failing element. -/
def buildStreams (base_url : JSON) : List JSON → Except PyExc (List StreamEntry)
  | [] => .ok []
  | q :: qs =>
    match buildStream base_url q with
    | .error e => .error e
    | .ok s =>
      match buildStreams base_url qs with
      | .error e => .error e
      | .ok rest => .ok (s :: rest)

/-- Iteration over quality_info by the comprehension.  The scan predicate
already checked isinstance(value[7], list), so quality_info is always a
list here; the other cases are unreachable from the pipeline. -/
def asIterList : JSON → Except PyExc (List JSON)
  | .seq xs => .ok xs
  | _ => .error .typeError

/-- The try-block body, src/main.py:52-95, on an already decoded tree:
every subscripting step in source order, the isinstance/len check, the
stream-block scan, and the final response dictionary. -/
def getGooglePhotosLinksBody (data : JSON) : Except PyExc PyResult :=
  match dataGet data with
  | .error e => .error e
  | .ok d1 =>
    match pyIndex d1 0 with
    | .error e => .error e
    | .ok video_info_block =>
      match checkVib video_info_block with
      | .error e => .error e
      | .ok vib =>
        match pyIndex (JSON.seq vib) 1 with
        | .error e => .error e
        | .ok v1 =>
          match pyIndex v1 0 with
          | .error e => .error e
          | .ok base_url =>
            match pyIndex (JSON.seq vib) 0 with
            | .error e => .error e
            | .ok file_code =>
              match dataGet data with
              | .error e => .error e
              | .ok d2 =>
                match pyIndex d2 1 with
                | .error e => .error e
                | .ok download_url =>
                  match findStreamBlock vib with
                  | none => .error (.httpException 500 "Stream data block not found")
                  | some stream_data_block =>
                    match pyIndex stream_data_block 7 with
                    | .error e => .error e
                    | .ok quality_info =>
                      match asIterList quality_info with
                      | .error e => .error e
                      | .ok qs =>
                        match buildStreams base_url qs with
                        | .error e => .error e
                        | .ok stream_urls =>
                          .ok { status := true,
                                host := "googlephoto",
                                filecode := file_code,
                                poster := pyStr base_url ++ "=w1920-h1080-no",
                                streams := stream_urls,
                                download := download_url,
                                vtt := none }

/-- Lines 50 and 97-99: the handler catches exactly KeyError, IndexError,
TypeError and demjson3.JSONDecodeError and re-raises HTTPException 500 with
detail "Could not parse data" (plus str(e), elided).  HTTPException and
AttributeError are not in the tuple and pass through unchanged. -/
def extractTree (data : JSON) : Except PyExc PyResult :=
  match getGooglePhotosLinksBody data with
  | .error .keyError => .error (.httpException 500 "Could not parse data")
  | .error .indexError => .error (.httpException 500 "Could not parse data")
  | .error .typeError => .error (.httpException 500 "Could not parse data")
  | r => r

/-- Outcome of the outbound GET at src/main.py:38-39: a body with a 2xx
status, a non-2xx status (raise_for_status raises httpx.HTTPStatusError),
or a transport failure such as a timeout (httpx.RequestError). -/
inductive FetchOutcome where
  | success (body : String)
  | statusError
  | requestError

/-- Boolean: does the second list start with the first? -/
def listStartsWith : List Char → List Char → Bool
  | [], _ => true
  | _ :: _, [] => false
  | a :: as, b :: bs => a == b && listStartsWith as bs

/-- First occurrence split: some (before, after) when the needle occurs,
where the haystack is before ++ needle ++ after and the occurrence is the
leftmost one. -/
def splitFirst (needle : List Char) : List Char → Option (List Char × List Char)
  | [] => if listStartsWith needle [] then some ([], []) else none
  | c :: cs =>
    if listStartsWith needle (c :: cs) then some ([], (c :: cs).drop needle.length)
    else
      match splitFirst needle cs with
      | some (pre, post) => some (c :: pre, post)
      | none => none

/-- The regex search at src/main.py:45 with re.DOTALL: the leftmost match
anchors at the first occurrence of the literal head, and the lazy capture
ends at the first subsequent occurrence of the literal tail.  If the head
never occurs, or no tail follows the first head, there is no match (a tail
following a later head would also follow the first). -/
def locateDataBlock (body : String) : Option String :=
  match splitFirst "AF_initDataCallback(".data body.data with
  | none => none
  | some (_, rest) =>
    match splitFirst ");</script>".data rest with
    | none => none
    | some (payload, _) => some (String.mk payload)

/-- get_google_photos_links, src/main.py:31-99, with the external
collaborators as oracles: fetch is the outbound GET, decode is
demjson3.decode with strict=False (none models demjson3.JSONDecodeError,
which the except tuple converts like the parse errors).  A requestError is
caught at line 40 and becomes HTTPException 500 "Could not fetch URL"
(plus str(e), elided); a statusError is httpx.HTTPStatusError, which the
except clause for httpx.RequestError does not catch, so it propagates
uncaught.  A missing marker block becomes HTTPException 500 at line 48. -/
def getGooglePhotosLinks (decode : String → Option JSON)
    (fetch : String → FetchOutcome) (url : String) : Except PyExc PyResult :=
  match fetch url with
  | .requestError => .error (.httpException 500 "Could not fetch URL")
  | .statusError => .error .httpStatusError
  | .success body =>
    match locateDataBlock body with
    | none => .error (.httpException 500 "Could not find data block")
    | some payload =>
      match decode payload with
      | none => .error (.httpException 500 "Could not parse data")
      | some tree => extractTree tree

/-- Boolean substring test: Python `needle in hay` on strings (true for the
empty needle). -/
def containsSub (needle : List Char) : List Char → Bool
  | [] => listStartsWith needle []
  | c :: cs => listStartsWith needle (c :: cs) || containsSub needle cs

/-- Python `needle in hay` for strings. -/
def pyIn (needle hay : String) : Bool :=
  containsSub needle.data hay.data

/-- The /extract endpoint, src/main.py:101-114.  An empty URL is falsy, so
`not URL or (both substrings absent)` rejects with HTTPException 400.  The
`if not result` branch at line 111 never fires: the function returns a
seven-key dictionary, which is truthy, or raises. -/
def extract_links (decode : String → Option JSON)
    (fetch : String → FetchOutcome) (URL : String) : Except PyExc PyResult :=
  if URL == "" || (!(pyIn "photos.app.goo.gl" URL) && !(pyIn "photos.google.com" URL)) then
    .error (.httpException 400 "Invalid or missing Google Photos URL")
  else
    match getGooglePhotosLinks decode fetch URL with
    | .error e => .error e
    | .ok result => .ok result

/-- The values scanned inside one element of video_info_block: a mapping
contributes its values in insertion order, anything else contributes none. -/
def mappingValues : JSON → List JSON
  | .map kvs => kvs.map Prod.snd
  | _ => []

example : pyStr (.num 37) = "37" := rfl
example : pyStr (.num (-3)) = "-3" := rfl
example : pyRepr (.map [("a", .seq [.num 1, .str "x"])]) = "\x7b'a': [1, 'x']\x7d" := rfl
example : pyIndex (.str "abc") 1 = .ok (.str "b") := rfl
example : pyIn "photos.google.com" "https://photos.google.com/share/x" = true := rfl
example : pyIn "photos.google.com" "" = false := rfl
example : locateDataBlock "xxAF_initDataCallback(PAYLOAD);</script>yy" = some "PAYLOAD" := rfl

lemma isStreamBlock_iff (v : JSON) :
    isStreamBlock v = true ↔
      ∃ ys, v = JSON.seq ys ∧ 7 < ys.length ∧ ∃ zs, ys[7]? = some (JSON.seq zs) := by
  cases v with
  | seq ys =>
    cases hg : ys[7]? with
    | none =>
      have hle : ¬ 7 < ys.length := by
        intro hlt
        rw [List.getElem?_eq_getElem hlt] at hg
        exact Option.noConfusion hg
      simp [isStreamBlock, hg, hle]
    | some w =>
      have h7 : 7 < ys.length := by
        by_contra hle
        rw [List.getElem?_eq_none (Nat.le_of_not_lt hle)] at hg
        exact Option.noConfusion hg
      constructor
      · intro hsb
        simp only [isStreamBlock] at hsb
        rw [hg] at hsb
        refine ⟨ys, rfl, h7, ?_⟩
        cases w with
        | seq zs => exact ⟨zs, hg⟩
        | null => simp at hsb
        | bool b => simp at hsb
        | num n => simp at hsb
        | str s => simp at hsb
        | map kvs => simp at hsb
      · rintro ⟨ys2, heq, h7b, zs, hzs⟩
        injection heq with heq
        subst heq
        rw [hg] at hzs
        injection hzs with hzs
        subst hzs
        simp only [isStreamBlock]
        rw [hg]
        simp [h7]
  | null => simp [isStreamBlock]
  | bool b => simp [isStreamBlock]
  | num n => simp [isStreamBlock]
  | str s => simp [isStreamBlock]
  | map kvs => simp [isStreamBlock]

/-- C1: the stream data block is chosen by scanning video_info_block in
order, and inside each mapping element its values in insertion order; the
chosen block is the first value in that combined order satisfying the
length/shape predicate, and the predicate holds exactly of sequences of
length > 7 whose element at index 7 is itself a sequence. -/
theorem stream_block_first_match_wins (vib : List JSON) :
    findStreamBlock vib = (vib.flatMap mappingValues).find? isStreamBlock ∧
      ∀ v, isStreamBlock v = true ↔
        ∃ ys, v = JSON.seq ys ∧ 7 < ys.length ∧ ∃ zs, ys[7]? = some (JSON.seq zs) := by
  refine ⟨?_, fun v => isStreamBlock_iff v⟩
  induction vib with
  | nil => rfl
  | cons item rest ih =>
    cases item with
    | map kvs =>
      simp only [findStreamBlock, mappingValues, List.flatMap_cons, List.find?_append]
      cases h : (kvs.map Prod.snd).find? isStreamBlock <;> simp [h, ih, Option.or]
    | null => simpa [findStreamBlock, mappingValues] using ih
    | bool b => simpa [findStreamBlock, mappingValues] using ih
    | num n => simpa [findStreamBlock, mappingValues] using ih
    | str s => simpa [findStreamBlock, mappingValues] using ih
    | seq xs => simpa [findStreamBlock, mappingValues] using ih

/-- The spec example input tree. -/
def exampleTree : JSON :=
  .map [("data", .seq [
    .seq [ .str "FC1",
           .seq [.str "https://base.url", .num 0],
           .map [("k", .seq [.num 0, .num 0, .num 0, .num 0, .num 0, .num 0, .num 0,
                             .seq [.seq [.num 37, .num 1920, .num 1080],
                                   .seq [.num 18, .num 640, .num 360]]])] ],
    .str "https://download.url" ])]

/-- C8: on the spec example tree, extraction succeeds with filecode FC1,
the templated poster URL, the two labelled streams in input order, and the
download URL. -/
theorem example_tree_extraction :
    extractTree exampleTree =
      .ok { status := true, host := "googlephoto", filecode := JSON.str "FC1",
            poster := "https://base.url=w1920-h1080-no",
            streams := [{ label := "1080p", url := "https://base.url=m37" },
                        { label := "360p", url := "https://base.url=m18" }],
            download := JSON.str "https://download.url", vtt := none } := rfl

lemma buildStream_ok (base q : JSON) (s : StreamEntry)
    (h : buildStream base q = .ok s) :
    ∃ q0 q1 q2, pyIndex q 0 = .ok q0 ∧ pyIndex q 1 = .ok q1 ∧ pyIndex q 2 = .ok q2 ∧
      s.label = qualityMapGet (pyStr q0) ("Resolution " ++ pyStr q1 ++ "x" ++ pyStr q2) ∧
      s.url = pyStr base ++ "=m" ++ pyStr q0 := by
  unfold buildStream at h
  cases h0 : pyIndex q 0 with
  | error e => simp [h0] at h
  | ok q0 =>
    simp only [h0] at h
    cases h1 : pyIndex q 1 with
    | error e => simp [h1] at h
    | ok q1 =>
      simp only [h1] at h
      cases h2 : pyIndex q 2 with
      | error e => simp [h2] at h
      | ok q2 =>
        simp only [h2] at h
        injection h with hh
        subst hh
        exact ⟨q0, q1, q2, rfl, rfl, rfl, rfl, rfl⟩

lemma buildStreams_spec (base : JSON) :
    ∀ (qs : List JSON) (S : List StreamEntry), buildStreams base qs = .ok S →
      S.length = qs.length ∧
      ∀ (i : Nat) (q : JSON) (s : StreamEntry), qs[i]? = some q → S[i]? = some s →
        ∃ q0 q1 q2, pyIndex q 0 = .ok q0 ∧ pyIndex q 1 = .ok q1 ∧ pyIndex q 2 = .ok q2 ∧
          s.label = qualityMapGet (pyStr q0) ("Resolution " ++ pyStr q1 ++ "x" ++ pyStr q2) ∧
          s.url = pyStr base ++ "=m" ++ pyStr q0 := by
  intro qs
  induction qs with
  | nil =>
    intro S h
    simp [buildStreams] at h
    subst h
    exact ⟨rfl, by intro i q s hq hs; simp at hq⟩
  | cons q qs ih =>
    intro S h
    unfold buildStreams at h
    cases hb : buildStream base q with
    | error e => simp [hb] at h
    | ok s0 =>
      simp only [hb] at h
      cases hr : buildStreams base qs with
      | error e => simp [hr] at h
      | ok rest =>
        simp only [hr] at h
        injection h with hh
        subst hh
        obtain ⟨hlen, hidx⟩ := ih rest hr
        refine ⟨by simp [hlen], ?_⟩
        intro i q' s' hq hs
        cases i with
        | zero =>
          simp only [List.getElem?_cons_zero, Option.some.injEq] at hq hs
          subst hq
          subst hs
          exact buildStream_ok _ _ _ hb
        | succ i =>
          simp only [List.getElem?_cons_succ] at hq hs
          exact hidx i q' s' hq hs

lemma qualityMapGet_eq (k d : String) :
    qualityMapGet k d =
      if k = "37" then "1080p" else if k = "22" then "720p"
      else if k = "18" then "360p" else if k = "36" then "180p" else d := by
  unfold qualityMapGet quality_map
  split_ifs with h1 h2 h3 h4
  · subst h1; rfl
  · subst h2; rfl
  · subst h3; rfl
  · subst h4; rfl
  · have e1 : (("37" : String) == k) = false := beq_eq_false_iff_ne.mpr (Ne.symm h1)
    have e2 : (("22" : String) == k) = false := beq_eq_false_iff_ne.mpr (Ne.symm h2)
    have e3 : (("18" : String) == k) = false := beq_eq_false_iff_ne.mpr (Ne.symm h3)
    have e4 : (("36" : String) == k) = false := beq_eq_false_iff_ne.mpr (Ne.symm h4)
    simp [List.find?, e1, e2, e3, e4]

/-- C2: for a quality_info list the extraction reaches and builds
successfully, the streams list has exactly one entry per variant in input
order, and each label follows the exact code table 37/22/18/36 with the
fallback "Resolution {width}x{height}" taken from that same variant. -/
theorem streams_one_per_variant (base : JSON) (qs : List JSON) (S : List StreamEntry)
    (h : buildStreams base qs = .ok S) :
    S.length = qs.length ∧
    ∀ (i : Nat) (q : JSON) (s : StreamEntry), qs[i]? = some q → S[i]? = some s →
      ∃ q0 q1 q2, pyIndex q 0 = .ok q0 ∧ pyIndex q 1 = .ok q1 ∧ pyIndex q 2 = .ok q2 ∧
        s.label = (if pyStr q0 = "37" then "1080p"
          else if pyStr q0 = "22" then "720p"
          else if pyStr q0 = "18" then "360p"
          else if pyStr q0 = "36" then "180p"
          else "Resolution " ++ pyStr q1 ++ "x" ++ pyStr q2) := by
  obtain ⟨hlen, hidx⟩ := buildStreams_spec base qs S h
  refine ⟨hlen, ?_⟩
  intro i q s hq hs
  obtain ⟨q0, q1, q2, e0, e1, e2, hl, _⟩ := hidx i q s hq hs
  exact ⟨q0, q1, q2, e0, e1, e2, by rw [hl, qualityMapGet_eq]⟩

/-- Concrete quality_info input for the C2 witness: one variant with the
unknown code 99. -/
def c2qs : List JSON := [JSON.seq [JSON.num 99, JSON.num 640, JSON.num 360]]

/-- Concrete streams output for the C2 witness. -/
def c2S : List StreamEntry := [{ label := "Resolution 640x360", url := "b=m99" }]

theorem streams_one_per_variant_witness :
    c2S.length = c2qs.length ∧
    ∀ (i : Nat) (q : JSON) (s : StreamEntry), c2qs[i]? = some q → c2S[i]? = some s →
      ∃ q0 q1 q2, pyIndex q 0 = .ok q0 ∧ pyIndex q 1 = .ok q1 ∧ pyIndex q 2 = .ok q2 ∧
        s.label = (if pyStr q0 = "37" then "1080p"
          else if pyStr q0 = "22" then "720p"
          else if pyStr q0 = "18" then "360p"
          else if pyStr q0 = "36" then "180p"
          else "Resolution " ++ pyStr q1 ++ "x" ++ pyStr q2) :=
  streams_one_per_variant (JSON.str "b") c2qs c2S (by rfl)

lemma extractTree_ok_iff (t : JSON) (r : PyResult) :
    extractTree t = .ok r ↔ getGooglePhotosLinksBody t = .ok r := by
  unfold extractTree
  cases h : getGooglePhotosLinksBody t with
  | ok v => simp
  | error e => cases e <;> simp

lemma body_ok_inversion (t : JSON) (r : PyResult)
    (h : getGooglePhotosLinksBody t = .ok r) :
    ∃ d1 vib0 vib v1 base fc dl sdb qi qs S,
      dataGet t = .ok d1 ∧ pyIndex d1 0 = .ok vib0 ∧ checkVib vib0 = .ok vib ∧
      pyIndex (JSON.seq vib) 1 = .ok v1 ∧ pyIndex v1 0 = .ok base ∧
      pyIndex (JSON.seq vib) 0 = .ok fc ∧ pyIndex d1 1 = .ok dl ∧
      findStreamBlock vib = some sdb ∧ pyIndex sdb 7 = .ok qi ∧
      asIterList qi = .ok qs ∧ buildStreams base qs = .ok S ∧
      r = { status := true, host := "googlephoto", filecode := fc,
            poster := pyStr base ++ "=w1920-h1080-no",
            streams := S, download := dl, vtt := none } := by
  unfold getGooglePhotosLinksBody at h
  cases h1 : dataGet t with
  | error e => simp [h1] at h
  | ok d1 =>
    simp only [h1] at h
    cases h2 : pyIndex d1 0 with
    | error e => simp [h2] at h
    | ok vib0 =>
      simp only [h2] at h
      cases h3 : checkVib vib0 with
      | error e => simp [h3] at h
      | ok vib =>
        simp only [h3] at h
        cases h4 : pyIndex (JSON.seq vib) 1 with
        | error e => simp [h4] at h
        | ok v1 =>
          simp only [h4] at h
          cases h5 : pyIndex v1 0 with
          | error e => simp [h5] at h
          | ok base =>
            simp only [h5] at h
            cases h6 : pyIndex (JSON.seq vib) 0 with
            | error e => simp [h6] at h
            | ok fc =>
              simp only [h6] at h
              cases h7 : pyIndex d1 1 with
              | error e => simp [h7] at h
              | ok dl =>
                simp only [h7] at h
                cases h8 : findStreamBlock vib with
                | none => simp [h8] at h
                | some sdb =>
                  simp only [h8] at h
                  cases h9 : pyIndex sdb 7 with
                  | error e => simp [h9] at h
                  | ok qi =>
                    simp only [h9] at h
                    cases h10 : asIterList qi with
                    | error e => simp [h10] at h
                    | ok qs =>
                      simp only [h10] at h
                      cases h11 : buildStreams base qs with
                      | error e => simp [h11] at h
                      | ok S =>
                        simp only [h11] at h
                        injection h with hh
                        exact ⟨d1, vib0, vib, v1, base, fc, dl, sdb, qi, qs, S,
                          rfl, h2, h3, h4, h5, h6, h7, h8, h9, h10, h11, hh.symm⟩

/-- C3: on every successful extraction the poster is the base URL (the
value at tree "data"[0][1][0]) with "=w1920-h1080-no" appended, and each
stream url is the base URL with "=m" and that variant's own code (the
variant's element at index 0) appended. -/
theorem poster_and_stream_urls (t : JSON) (r : PyResult)
    (h : extractTree t = .ok r) :
    ∃ d1 vib0 vib v1 base,
      dataGet t = .ok d1 ∧ pyIndex d1 0 = .ok vib0 ∧ checkVib vib0 = .ok vib ∧
      pyIndex (JSON.seq vib) 1 = .ok v1 ∧ pyIndex v1 0 = .ok base ∧
      r.poster = pyStr base ++ "=w1920-h1080-no" ∧
      ∃ sdb qi qs, findStreamBlock vib = some sdb ∧ pyIndex sdb 7 = .ok qi ∧
        asIterList qi = .ok qs ∧
        ∀ (i : Nat) (q : JSON) (s : StreamEntry), qs[i]? = some q →
          r.streams[i]? = some s →
          ∃ q0, pyIndex q 0 = .ok q0 ∧ s.url = pyStr base ++ "=m" ++ pyStr q0 := by
  rw [extractTree_ok_iff] at h
  obtain ⟨d1, vib0, vib, v1, base, fc, dl, sdb, qi, qs, S,
    h1, h2, h3, h4, h5, h6, h7, h8, h9, h10, h11, hr⟩ := body_ok_inversion t r h
  subst hr
  refine ⟨d1, vib0, vib, v1, base, h1, h2, h3, h4, h5, rfl, sdb, qi, qs, h8, h9, h10, ?_⟩
  intro i q s hq hs
  obtain ⟨hlen, hidx⟩ := buildStreams_spec base qs S h11
  obtain ⟨q0, q1, q2, e0, e1, e2, hl, hu⟩ := hidx i q s hq hs
  exact ⟨q0, e0, hu⟩

/-- The extraction result of the spec example tree, used as the concrete
instance for witnesses. -/
def exampleResult : PyResult :=
  { status := true, host := "googlephoto", filecode := JSON.str "FC1",
    poster := "https://base.url=w1920-h1080-no",
    streams := [{ label := "1080p", url := "https://base.url=m37" },
                { label := "360p", url := "https://base.url=m18" }],
    download := JSON.str "https://download.url", vtt := none }

theorem poster_and_stream_urls_witness :
    ∃ d1 vib0 vib v1 base,
      dataGet exampleTree = .ok d1 ∧ pyIndex d1 0 = .ok vib0 ∧ checkVib vib0 = .ok vib ∧
      pyIndex (JSON.seq vib) 1 = .ok v1 ∧ pyIndex v1 0 = .ok base ∧
      exampleResult.poster = pyStr base ++ "=w1920-h1080-no" ∧
      ∃ sdb qi qs, findStreamBlock vib = some sdb ∧ pyIndex sdb 7 = .ok qi ∧
        asIterList qi = .ok qs ∧
        ∀ (i : Nat) (q : JSON) (s : StreamEntry), qs[i]? = some q →
          exampleResult.streams[i]? = some s →
          ∃ q0, pyIndex q 0 = .ok q0 ∧ s.url = pyStr base ++ "=m" ++ pyStr q0 :=
  poster_and_stream_urls exampleTree exampleResult (by rfl)

/-- C4: a URL containing neither "photos.app.goo.gl" nor
"photos.google.com" (the empty string included) is rejected with
HTTPException 400 "Invalid or missing Google Photos URL", and the result
is the same for every fetch oracle: no outbound fetch influences it. -/
theorem invalid_url_rejected (decode : String → Option JSON)
    (fetch : String → FetchOutcome) (URL : String)
    (h1 : pyIn "photos.app.goo.gl" URL = false)
    (h2 : pyIn "photos.google.com" URL = false) :
    extract_links decode fetch URL =
      .error (.httpException 400 "Invalid or missing Google Photos URL") := by
  unfold extract_links
  rw [h1, h2]
  simp

theorem invalid_url_rejected_witness :
    extract_links (fun _ => none) (fun _ => FetchOutcome.requestError) "http://example.com" =
      .error (.httpException 400 "Invalid or missing Google Photos URL") :=
  invalid_url_rejected _ _ _ (by rfl) (by rfl)

/-- C9: the endpoint is a pure function of the URL and of the single fetch
of that URL: two runs against oracles that serve the same body for the
requested URL produce identical results, there being no mutable state in
the pipeline. -/
theorem extract_links_deterministic (decode : String → Option JSON)
    (f g : String → FetchOutcome) (URL : String) (h : f URL = g URL) :
    extract_links decode f URL = extract_links decode g URL := by
  unfold extract_links getGooglePhotosLinks
  rw [h]

/-- Fetch oracle for the determinism witness: serves a fixed page for one
URL, transport error elsewhere. -/
def fetchA : String → FetchOutcome :=
  fun u => if u == "https://photos.google.com/a" then .success "page" else .requestError

/-- Second oracle: agrees with fetchA on that URL, differs elsewhere. -/
def fetchB : String → FetchOutcome :=
  fun u => if u == "https://photos.google.com/a" then .success "page" else .statusError

theorem extract_links_deterministic_witness :
    extract_links (fun _ => some exampleTree) fetchA "https://photos.google.com/a" =
      extract_links (fun _ => some exampleTree) fetchB "https://photos.google.com/a" :=
  extract_links_deterministic (fun _ => some exampleTree) fetchA fetchB
    "https://photos.google.com/a" (by rfl)

/-- C5 counterexample: on a non-2xx status, raise_for_status raises
httpx.HTTPStatusError, which `except httpx.RequestError` does not catch;
the outcome is an uncaught exception, not HTTPException 500 with detail
"Could not fetch URL". -/
theorem nonsuccess_status_uncaught :
    getGooglePhotosLinks (fun _ => none) (fun _ => FetchOutcome.statusError)
        "https://photos.google.com/a" = .error PyExc.httpStatusError ∧
    PyExc.httpStatusError ≠ PyExc.httpException 500 "Could not fetch URL" :=
  ⟨rfl, fun h => PyExc.noConfusion h⟩

/-- C5 amended: a network failure or timeout (httpx.RequestError) is
caught and surfaces as HTTPException 500 "Could not fetch URL" (plus
diagnostic text); a non-2xx status instead propagates as an uncaught
httpx.HTTPStatusError (still a 500-equivalent response, but without that
detail); in every case the outcome depends only on the single fetch of the
requested URL, so no retry is attempted. -/
theorem fetch_error_handling (decode : String → Option JSON)
    (f g : String → FetchOutcome) (url : String) :
    (f url = .requestError →
      getGooglePhotosLinks decode f url =
        .error (.httpException 500 "Could not fetch URL")) ∧
    (f url = .statusError →
      getGooglePhotosLinks decode f url = .error PyExc.httpStatusError) ∧
    (f url = g url →
      getGooglePhotosLinks decode f url = getGooglePhotosLinks decode g url) := by
  refine ⟨?_, ?_, ?_⟩
  · intro h
    unfold getGooglePhotosLinks
    rw [h]
  · intro h
    unfold getGooglePhotosLinks
    rw [h]
  · intro h
    unfold getGooglePhotosLinks
    rw [h]

lemma checkVib_ok (j : JSON) (vib : List JSON) (h : checkVib j = .ok vib) :
    j = JSON.seq vib ∧ 2 ≤ vib.length := by
  cases j with
  | seq xs =>
    simp only [checkVib] at h
    by_cases hl : xs.length < 2
    · rw [if_pos hl] at h
      exact absurd h (by simp)
    · rw [if_neg hl] at h
      injection h with hx
      subst hx
      exact ⟨rfl, by omega⟩
  | null => simp [checkVib] at h
  | bool b => simp [checkVib] at h
  | num n => simp [checkVib] at h
  | str s => simp [checkVib] at h
  | map kvs => simp [checkVib] at h

lemma findStreamBlock_none (vib : List JSON)
    (h : (vib.all fun item => (mappingValues item).all fun v => !isStreamBlock v) = true) :
    findStreamBlock vib = none := by
  induction vib with
  | nil => rfl
  | cons item rest ih =>
    simp only [List.all_cons, Bool.and_eq_true] at h
    obtain ⟨hitem, hrest⟩ := h
    cases item with
    | map kvs =>
      have hfind : (kvs.map Prod.snd).find? isStreamBlock = none := by
        rw [List.find?_eq_none]
        intro v hv
        have hb := (List.all_eq_true.mp hitem) v hv
        simp only [Bool.not_eq_eq_eq_not, Bool.not_true] at hb
        simp [hb]
      simp [findStreamBlock, hfind, ih hrest]
    | null => simpa [findStreamBlock] using ih hrest
    | bool b => simpa [findStreamBlock] using ih hrest
    | num n => simpa [findStreamBlock] using ih hrest
    | str s => simpa [findStreamBlock] using ih hrest
    | seq xs => simpa [findStreamBlock] using ih hrest

/-- C6: when the positional steps up to the scan all succeed but no
mapping element of video_info_block has any value satisfying the
length/shape predicate, extraction fails with HTTPException 500 whose
detail is exactly "Stream data block not found". -/
theorem stream_block_absent_error (t d1 vib0 : JSON) (vib : List JSON)
    (v1 base dl : JSON)
    (h1 : dataGet t = .ok d1) (h2 : pyIndex d1 0 = .ok vib0)
    (h3 : checkVib vib0 = .ok vib)
    (h4 : pyIndex (JSON.seq vib) 1 = .ok v1) (h5 : pyIndex v1 0 = .ok base)
    (h6 : pyIndex d1 1 = .ok dl)
    (hnone : (vib.all fun item => (mappingValues item).all fun v => !isStreamBlock v) = true) :
    extractTree t = .error (.httpException 500 "Stream data block not found") := by
  have hlen : 2 ≤ vib.length := (checkVib_ok vib0 vib h3).2
  have hfc : pyIndex (JSON.seq vib) 0 = .ok vib[0] := by
    have h0 : vib[0]? = some vib[0] := List.getElem?_eq_getElem (by omega)
    simp [pyIndex, h0]
  have hfind := findStreamBlock_none vib hnone
  have hbody : getGooglePhotosLinksBody t =
      .error (.httpException 500 "Stream data block not found") := by
    unfold getGooglePhotosLinksBody
    simp only [h1, h2, h3, h4, h5, hfc, h6, hfind]
  unfold extractTree
  rw [hbody]

/-- video_info_block of the C6 witness tree: no mapping value qualifies. -/
def c6Vib : List JSON :=
  [.str "fc", .seq [.str "b", .num 0], .map [("k", .num 0)]]

/-- The C6 witness tree. -/
def c6Tree : JSON := .map [("data", .seq [.seq c6Vib, .str "dl"])]

theorem stream_block_absent_error_witness :
    extractTree c6Tree = .error (.httpException 500 "Stream data block not found") :=
  stream_block_absent_error c6Tree (.seq [.seq c6Vib, .str "dl"]) (.seq c6Vib) c6Vib
    (.seq [.str "b", .num 0]) (.str "b") (.str "dl")
    (by rfl) (by rfl) (by rfl) (by rfl) (by rfl) (by rfl) (by rfl)

lemma pyIndex_error (j : JSON) (i : Nat) (e : PyExc) (h : pyIndex j i = .error e) :
    e = .keyError ∨ e = .indexError ∨ e = .typeError := by
  cases j with
  | seq xs =>
    simp only [pyIndex] at h
    cases hx : xs[i]? with
    | some v => simp [hx] at h
    | none =>
      rw [hx] at h
      injection h with he
      exact Or.inr (Or.inl he.symm)
  | str s =>
    simp only [pyIndex] at h
    cases hx : s.data[i]? with
    | some c => simp [hx] at h
    | none =>
      rw [hx] at h
      injection h with he
      exact Or.inr (Or.inl he.symm)
  | map kvs =>
    simp only [pyIndex] at h
    injection h with he
    exact Or.inl he.symm
  | null =>
    simp only [pyIndex] at h
    injection h with he
    exact Or.inr (Or.inr he.symm)
  | bool b =>
    simp only [pyIndex] at h
    injection h with he
    exact Or.inr (Or.inr he.symm)
  | num n =>
    simp only [pyIndex] at h
    injection h with he
    exact Or.inr (Or.inr he.symm)

lemma buildStream_error (base q : JSON) (e : PyExc)
    (h : buildStream base q = .error e) :
    e = .keyError ∨ e = .indexError ∨ e = .typeError := by
  unfold buildStream at h
  cases h0 : pyIndex q 0 with
  | error e0 =>
    simp only [h0] at h
    injection h with he
    exact he ▸ pyIndex_error q 0 e0 h0
  | ok q0 =>
    simp only [h0] at h
    cases h1 : pyIndex q 1 with
    | error e1 =>
      simp only [h1] at h
      injection h with he
      exact he ▸ pyIndex_error q 1 e1 h1
    | ok q1 =>
      simp only [h1] at h
      cases h2 : pyIndex q 2 with
      | error e2 =>
        simp only [h2] at h
        injection h with he
        exact he ▸ pyIndex_error q 2 e2 h2
      | ok q2 => simp [h2] at h

lemma buildStreams_error (base : JSON) :
    ∀ (qs : List JSON) (e : PyExc), buildStreams base qs = .error e →
      e = .keyError ∨ e = .indexError ∨ e = .typeError := by
  intro qs
  induction qs with
  | nil => intro e h; simp [buildStreams] at h
  | cons q qs ih =>
    intro e h
    unfold buildStreams at h
    cases hb : buildStream base q with
    | error e0 =>
      simp only [hb] at h
      injection h with he
      exact he ▸ buildStream_error base q e0 hb
    | ok s0 =>
      simp only [hb] at h
      cases hr : buildStreams base qs with
      | error e1 =>
        simp only [hr] at h
        injection h with he
        exact he ▸ ih e1 hr
      | ok rest => simp [hr] at h

lemma dataGet_error (t : JSON) (e : PyExc) (h : dataGet t = .error e) :
    e = .attributeError ∧ ∀ kvs, t ≠ JSON.map kvs := by
  cases t with
  | map kvs => simp [dataGet] at h
  | null =>
    simp only [dataGet] at h
    injection h with he
    exact ⟨he.symm, fun kvs hne => JSON.noConfusion hne⟩
  | bool b =>
    simp only [dataGet] at h
    injection h with he
    exact ⟨he.symm, fun kvs hne => JSON.noConfusion hne⟩
  | num n =>
    simp only [dataGet] at h
    injection h with he
    exact ⟨he.symm, fun kvs hne => JSON.noConfusion hne⟩
  | str s =>
    simp only [dataGet] at h
    injection h with he
    exact ⟨he.symm, fun kvs hne => JSON.noConfusion hne⟩
  | seq xs =>
    simp only [dataGet] at h
    injection h with he
    exact ⟨he.symm, fun kvs hne => JSON.noConfusion hne⟩

lemma checkVib_error (j : JSON) (e : PyExc) (h : checkVib j = .error e) :
    e = .httpException 500 "Invalid video info format" := by
  cases j with
  | seq xs =>
    simp only [checkVib] at h
    by_cases hl : xs.length < 2
    · rw [if_pos hl] at h
      injection h with he
      exact he.symm
    · rw [if_neg hl] at h
      exact absurd h (by simp)
  | null => simp only [checkVib] at h; injection h with he; exact he.symm
  | bool b => simp only [checkVib] at h; injection h with he; exact he.symm
  | num n => simp only [checkVib] at h; injection h with he; exact he.symm
  | str s => simp only [checkVib] at h; injection h with he; exact he.symm
  | map kvs => simp only [checkVib] at h; injection h with he; exact he.symm

lemma asIterList_error (j : JSON) (e : PyExc) (h : asIterList j = .error e) :
    e = .typeError := by
  cases j with
  | seq xs => simp [asIterList] at h
  | null => simp only [asIterList] at h; injection h with he; exact he.symm
  | bool b => simp only [asIterList] at h; injection h with he; exact he.symm
  | num n => simp only [asIterList] at h; injection h with he; exact he.symm
  | str s => simp only [asIterList] at h; injection h with he; exact he.symm
  | map kvs => simp only [asIterList] at h; injection h with he; exact he.symm

lemma body_error_cases (t : JSON) (e : PyExc)
    (h : getGooglePhotosLinksBody t = .error e) :
    e = .keyError ∨ e = .indexError ∨ e = .typeError ∨
    e = .httpException 500 "Invalid video info format" ∨
    e = .httpException 500 "Stream data block not found" ∨
    ((∀ kvs, t ≠ JSON.map kvs) ∧ e = .attributeError) := by
  unfold getGooglePhotosLinksBody at h
  cases h1 : dataGet t with
  | error e0 =>
    rw [h1] at h
    injection h with he
    obtain ⟨ha, hnm⟩ := dataGet_error t e0 h1
    exact Or.inr (Or.inr (Or.inr (Or.inr (Or.inr ⟨hnm, he ▸ ha⟩))))
  | ok d1 =>
    simp only [h1] at h
    cases h2 : pyIndex d1 0 with
    | error e0 =>
      simp only [h2] at h
      injection h with he
      rcases he ▸ pyIndex_error d1 0 e0 h2 with hx | hx | hx <;> simp [hx]
    | ok vib0 =>
      simp only [h2] at h
      cases h3 : checkVib vib0 with
      | error e0 =>
        simp only [h3] at h
        injection h with he
        simp [he ▸ checkVib_error vib0 e0 h3]
      | ok vib =>
        simp only [h3] at h
        cases h4 : pyIndex (JSON.seq vib) 1 with
        | error e0 =>
          simp only [h4] at h
          injection h with he
          rcases he ▸ pyIndex_error (JSON.seq vib) 1 e0 h4 with hx | hx | hx <;> simp [hx]
        | ok v1 =>
          simp only [h4] at h
          cases h5 : pyIndex v1 0 with
          | error e0 =>
            simp only [h5] at h
            injection h with he
            rcases he ▸ pyIndex_error v1 0 e0 h5 with hx | hx | hx <;> simp [hx]
          | ok base =>
            simp only [h5] at h
            cases h6 : pyIndex (JSON.seq vib) 0 with
            | error e0 =>
              simp only [h6] at h
              injection h with he
              rcases he ▸ pyIndex_error (JSON.seq vib) 0 e0 h6 with hx | hx | hx <;> simp [hx]
            | ok fc =>
              simp only [h6] at h
              cases h7 : pyIndex d1 1 with
              | error e0 =>
                simp only [h7] at h
                injection h with he
                rcases he ▸ pyIndex_error d1 1 e0 h7 with hx | hx | hx <;> simp [hx]
              | ok dl =>
                simp only [h7] at h
                cases h8 : findStreamBlock vib with
                | none =>
                  simp only [h8] at h
                  injection h with he
                  simp [he.symm]
                | some sdb =>
                  simp only [h8] at h
                  cases h9 : pyIndex sdb 7 with
                  | error e0 =>
                    simp only [h9] at h
                    injection h with he
                    rcases he ▸ pyIndex_error sdb 7 e0 h9 with hx | hx | hx <;> simp [hx]
                  | ok qi =>
                    simp only [h9] at h
                    cases h10 : asIterList qi with
                    | error e0 =>
                      simp only [h10] at h
                      injection h with he
                      simp [he ▸ asIterList_error qi e0 h10]
                    | ok qs =>
                      simp only [h10] at h
                      cases h11 : buildStreams base qs with
                      | error e0 =>
                        simp only [h11] at h
                        injection h with he
                        rcases he ▸ buildStreams_error base qs e0 h11 with hx | hx | hx <;> simp [hx]
                      | ok S => simp [h11] at h

/-- C7 counterexample: when the decoded top-level value is not a mapping,
data.get raises AttributeError, which the except tuple does not cover, so
the outcome is an uncaught AttributeError and not the ParseError
HTTPException. -/
theorem toplevel_nonmapping_attribute_error :
    extractTree (JSON.seq []) = .error PyExc.attributeError ∧
    PyExc.attributeError ≠ PyExc.httpException 500 "Could not parse data" :=
  ⟨rfl, fun h => PyExc.noConfusion h⟩

/-- C7 amended: every extraction either succeeds or fails with one of the
HTTPException outcomes (the ParseError conversion of a caught KeyError,
IndexError or TypeError, the invalid-video-info check, or the absent
stream block) — except that a top-level value that is not a mapping fails
with an uncaught AttributeError instead of a ParseError.  In every failure
case the whole extraction aborts with no partial result, and the caught
exception classes never escape. -/
theorem extract_error_taxonomy (t : JSON) :
    (∃ r, extractTree t = .ok r) ∨
    extractTree t = .error (.httpException 500 "Could not parse data") ∨
    extractTree t = .error (.httpException 500 "Invalid video info format") ∨
    extractTree t = .error (.httpException 500 "Stream data block not found") ∨
    ((∀ kvs, t ≠ JSON.map kvs) ∧ extractTree t = .error PyExc.attributeError) := by
  cases hb : getGooglePhotosLinksBody t with
  | ok r => exact Or.inl ⟨r, (extractTree_ok_iff t r).mpr hb⟩
  | error eb =>
    rcases body_error_cases t eb hb with h | h | h | h | h | ⟨hnm, h⟩
    · subst h
      refine Or.inr (Or.inl ?_)
      unfold extractTree
      rw [hb]
    · subst h
      refine Or.inr (Or.inl ?_)
      unfold extractTree
      rw [hb]
    · subst h
      refine Or.inr (Or.inl ?_)
      unfold extractTree
      rw [hb]
    · subst h
      refine Or.inr (Or.inr (Or.inl ?_))
      unfold extractTree
      rw [hb]
    · subst h
      refine Or.inr (Or.inr (Or.inr (Or.inl ?_)))
      unfold extractTree
      rw [hb]
    · subst h
      refine Or.inr (Or.inr (Or.inr (Or.inr ⟨hnm, ?_⟩)))
      unfold extractTree
      rw [hb]

/-- The qualifying stream block of the C10 counterexample: its element at
index 7 is the one-element quality list whose only variant is the
three-character string "abc", not a sequence. -/
def c10Block : JSON :=
  .seq [.num 0, .num 0, .num 0, .num 0, .num 0, .num 0, .num 0, .seq [.str "abc"]]

/-- video_info_block of the C10 counterexample tree. -/
def c10Vib : List JSON :=
  [.str "FC", .seq [.str "b", .num 0], .map [("k", c10Block)]]

/-- The C10 counterexample tree. -/
def c10Tree : JSON := .map [("data", .seq [.seq c10Vib, .str "dl"])]

/-- C10 counterexample: the quality list reached is [str "abc"], whose only
variant is a string and not a sequence, yet extraction succeeds (Python
subscripting also indexes strings), labelling it "Resolution bxc".  So
success does not require every variant to be a sequence of length at
least 3. -/
theorem string_variant_succeeds :
    findStreamBlock c10Vib = some c10Block ∧
    pyIndex c10Block 7 = .ok (JSON.seq [JSON.str "abc"]) ∧
    extractTree c10Tree =
      .ok { status := true, host := "googlephoto", filecode := JSON.str "FC",
            poster := "b=w1920-h1080-no",
            streams := [{ label := "Resolution bxc", url := "b=ma" }],
            download := JSON.str "dl", vtt := none } ∧
    (∀ xs : List JSON, JSON.str "abc" ≠ JSON.seq xs) :=
  ⟨rfl, rfl, rfl, fun _ h => JSON.noConfusion h⟩

/-- The C10 amended-claim tree: identical shape, but the single variant is
the one-element list [37], too short to be subscripted at index 1. -/
def c10ShortTree : JSON :=
  .map [("data", .seq [
    .seq [.str "FC", .seq [.str "b", .num 0],
          .map [("k", .seq [.num 0, .num 0, .num 0, .num 0, .num 0, .num 0, .num 0,
                            .seq [.seq [.num 37]]])]],
    .str "dl"])]

/-- C10 amended: because the fallback label is evaluated eagerly as the
default argument of the lookup, every variant a successful build contains
must be subscriptable at indices 0, 1 and 2 — a sequence of length at
least 3 or a string of length at least 3 — and a variant with fewer than
3 elements aborts the whole extraction with the ParseError conversion even
when its code 37 is a known key. -/
theorem variant_indexable_for_success (base : JSON) (qs : List JSON)
    (S : List StreamEntry) (h : buildStreams base qs = .ok S) :
    (∀ q ∈ qs, (∃ xs, q = JSON.seq xs ∧ 3 ≤ xs.length) ∨
      (∃ s, q = JSON.str s ∧ 3 ≤ s.length)) ∧
    extractTree c10ShortTree = .error (.httpException 500 "Could not parse data") := by
  refine ⟨?_, by rfl⟩
  intro q hq
  obtain ⟨i, hi⟩ := List.mem_iff_getElem?.mp hq
  obtain ⟨hlen, hidx⟩ := buildStreams_spec base qs S h
  have hil : i < qs.length := by
    by_contra hge
    rw [List.getElem?_eq_none (Nat.le_of_not_lt hge)] at hi
    exact Option.noConfusion hi
  have hsl : i < S.length := by omega
  have hs : S[i]? = some S[i] := List.getElem?_eq_getElem hsl
  obtain ⟨q0, q1, q2, e0, e1, e2, _, _⟩ := hidx i q S[i] hi hs
  cases q with
  | seq xs =>
    refine Or.inl ⟨xs, rfl, ?_⟩
    simp only [pyIndex] at e2
    cases hx : xs[2]? with
    | none => simp [hx] at e2
    | some v =>
      have h2 : 2 < xs.length := by
        by_contra hge
        rw [List.getElem?_eq_none (Nat.le_of_not_lt hge)] at hx
        exact Option.noConfusion hx
      omega
  | str s2 =>
    refine Or.inr ⟨s2, rfl, ?_⟩
    simp only [pyIndex] at e2
    cases hx : s2.data[2]? with
    | none => simp [hx] at e2
    | some c =>
      have h2 : 2 < s2.data.length := by
        by_contra hge
        rw [List.getElem?_eq_none (Nat.le_of_not_lt hge)] at hx
        exact Option.noConfusion hx
      have hl2 : s2.length = s2.data.length := rfl
      omega
  | null => simp [pyIndex] at e0
  | bool b => simp [pyIndex] at e0
  | num n => simp [pyIndex] at e0
  | map kvs => simp [pyIndex] at e0

theorem variant_indexable_for_success_witness :
    (∀ q ∈ c2qs, (∃ xs, q = JSON.seq xs ∧ 3 ≤ xs.length) ∨
      (∃ s, q = JSON.str s ∧ 3 ≤ s.length)) ∧
    extractTree c10ShortTree = .error (.httpException 500 "Could not parse data") :=
  variant_indexable_for_success (JSON.str "b") c2qs c2S (by rfl)
